import Mathlib

/-!
Verification of the EasyTL dispatch core against its specification.

The development shallowly embeds the dispatch engine of `src/easytl/easytl.py`
together with the Gemini service (`src/easytl/gemini_service.py`).  Python
exceptions are modelled explicitly; in particular the source's pervasive
pattern `assert cond, SomeException(...)` is modelled faithfully: a failing
Python assert raises an AssertionError whose message is the exception
instance, it does not raise that exception itself.

External collaborators (the SDK clients, the cost-estimation heuristics, the
log-file writers and the argument-validation helpers, all excluded by
section 1 of the spec) enter the embedding as function parameters or as
identity wrappers.  Repository code that is not under src/ is modelled from
the spec and marked as such in its doc comment.
-/

/-- The EasyTL exception instances that the source passes as messages of
Python asserts.  `foreignExn` stands for the arbitrary exception object that
`test_credentials` re-asserts when a failure is not of the backend's expected
error family. -/
inductive AssertMsg where
  | invalidResponseFormat (m : String)
  | malformedResponse (m : String)
  | invalidTextInput (m : String)
  | foreignExn
deriving DecidableEq, Repr

/-- Python-level failure outcomes of a dispatch call.  A failing `assert`
raises an AssertionError carrying its message object; `raisedInvalidTextInput`
models a genuine `raise InvalidTextInputException(...)` statement; `pending`
is the artifact state of an asyncio gather whose completion schedule has not
yet completed every task (the awaited call has not returned). -/
inductive PyErr where
  | assertionError (msg : AssertMsg)
  | typeError (m : String)
  | attributeError (m : String)
  | indexError (m : String)
  | raisedInvalidTextInput (m : String)
  | pending
deriving DecidableEq, Repr

/-- Python `assert cond, msg`: on failure it raises AssertionError with the
message object, never the message object itself. -/
def pyAssert (cond : Bool) (msg : AssertMsg) : Except PyErr Unit :=
  if cond then .ok () else .error (.assertionError msg)

/-- The `text` argument of a translate entry point: a single string, an
iterable of strings, or something else (neither). -/
inductive TextInput where
  | str (s : String)
  | strList (ts : List String)
  | invalidInput
deriving DecidableEq, Repr

/-- Outcome of the backend's credential test function (an external
collaborator): credentials valid; invalid with an exception of the backend's
expected error family; or invalid with an exception outside that family. -/
inductive CredOutcome where
  | valid
  | invalidExpected
  | invalidUnexpected
deriving DecidableEq, Repr

/-- `EasyTL.test_credentials` (easytl.py lines 102-109): calls the backend
test function; if invalid, asserts that the exception belongs to the
backend's expected family (AssertionError carrying the foreign exception
otherwise) and returns the tuple `(False, e)`; returns `(True, None)` when
valid.  The returned Bool is the `valid` component of the tuple. -/
def testCredentials : CredOutcome → Except PyErr Bool
  | .valid => .ok true
  | .invalidExpected => .ok false
  | .invalidUnexpected => .error (.assertionError .foreignExn)

/-- Result count and outcome of one dispatch call.  `requests` counts the
per-unit translation requests issued to the backend during the call. -/
structure DispatchOut (α : Type) where
  result : Except PyErr α
  requests : Nat

/-! ### asyncio.gather model

`asyncio.gather(*tasks)` runs one task per unit and stores each task's result
at the task's own index, returning the slot list in index order once every
task has completed.  The completion schedule (the order in which tasks
finish) is an explicit parameter; gather returns `none` while some slot is
still unfilled. -/

/-- Fill result slots in completion order: each completion event `j` stores
task `j`'s result at slot `j` (an out-of-range index is a no-op, matching
`List.set`). -/
def fillSlots (r : Nat → Option β) : List Nat → List (Option β) → List (Option β)
  | [], slots => slots
  | j :: rest, slots => fillSlots r rest (slots.set j (r j))

/-- Sequence a slot list: `some` of the values if every slot is filled. -/
def allSome : List (Option β) → Option (List β)
  | [] => some []
  | none :: _ => none
  | some b :: l => (allSome l).map (fun bs => b :: bs)

/-- Run `asyncio.gather` over one task per input, with the given completion
schedule; `some results` in input-index order once the schedule has completed
every task. -/
def runGather (f : α → β) (inputs : List α) (schedule : List Nat) : Option (List β) :=
  allSome (fillSlots (fun j => inputs[j]?.map f) schedule
            (List.replicate inputs.length none))

/-- A schedule that completes every one of `n` tasks. -/
def CompleteSchedule (n : Nat) (schedule : List Nat) : Prop :=
  ∀ i, i < n → i ∈ schedule

instance (n : Nat) (schedule : List Nat) : Decidable (CompleteSchedule n schedule) := by
  unfold CompleteSchedule
  infer_instance

/-! ### Google Translate backend

The GoogleTL SDK client is an external collaborator (spec section 1: clients
expose `translate(text) -> response`); the response is a dict carrying a
`translatedText` field, or - in the malformed case - a list.  The per-unit
call is the parameter `f` of the dispatch functions below.  The dispatch,
normalisation and collapse logic embedded here is easytl.py lines 156-202
(sync) and 255-300 (async), with no decorator supplied
(`decorator = None`, the default; the decorator path is embedded separately
with the Gemini service). -/

/-- The dict-shaped Google Translate v2 response (content-bearing field
only; remaining fields are irrelevant to the dispatch core). -/
structure GoogleDict where
  translatedText : String
deriving DecidableEq, Repr

/-- A raw Google Translate response value: the expected dict, or a list
(the malformed collection case). -/
inductive GoogleResp where
  | dict (d : GoogleDict)
  | coll (rs : List GoogleDict)
deriving DecidableEq, Repr

/-- Python `isinstance(r, list)`. -/
def GoogleResp.isList : GoogleResp → Bool
  | .dict _ => false
  | .coll _ => true

/-- Python subscript `r["translatedText"]`; on a list it raises TypeError
(list indices must be integers). -/
def GoogleResp.subscriptTranslatedText : GoogleResp → Except PyErr String
  | .dict d => .ok d.translatedText
  | .coll _ => .error (.typeError "list indices must be integers or slices, not str")

/-- Return shape of a googletl translate call. -/
inductive GoogleResult where
  | scalarText (s : String)
  | scalarRaw (r : GoogleResp)
  | listText (ts : List String)
  | listRaw (rs : List GoogleResp)
deriving DecidableEq, Repr

/-- The list comprehension `[r["translatedText"] for r in results]`,
evaluated left to right. -/
def googletlExtractTexts : List GoogleResp → Except PyErr (List String)
  | [] => .ok []
  | r :: rs =>
    match r.subscriptTranslatedText with
    | .error e => .error e
    | .ok t =>
      match googletlExtractTexts rs with
      | .error e => .error e
      | .ok ts => .ok (t :: ts)

/-- `EasyTL.googletl_translate` (easytl.py lines 114-202): response-type and
format asserts, credential test (result tuple discarded), per-unit dispatch,
malformed-response assert, normalisation and list-vs-scalar collapse. -/
def googletl_translate (f : String → GoogleResp) (cr : CredOutcome)
    (text : TextInput) (response_type : String) (format : String) :
    DispatchOut GoogleResult :=
  match pyAssert (["text", "raw"].contains response_type)
        (.invalidResponseFormat "Invalid response type specified. Must be text or raw.") with
  | .error e => ⟨.error e, 0⟩
  | .ok _ =>
  match pyAssert (["text", "html"].contains format)
        (.invalidResponseFormat "Invalid format specified. Must be text or html.") with
  | .error e => ⟨.error e, 0⟩
  | .ok _ =>
  match testCredentials cr with
  | .error e => ⟨.error e, 0⟩
  | .ok _ =>
  match text with
  | .str s =>
    let r := f s
    (match pyAssert (!r.isList)
           (.malformedResponse "Malformed response received. Please try again.") with
     | .error e => ⟨.error e, 1⟩
     | .ok _ =>
       if response_type = "raw" then ⟨.ok (.scalarRaw r), 1⟩
       else
         match r.subscriptTranslatedText with
         | .error e => ⟨.error e, 1⟩
         | .ok t => ⟨.ok (.scalarText t), 1⟩)
  | .strList ts =>
    let rs := ts.map f
    if response_type = "text" then
      match googletlExtractTexts rs with
      | .error e => ⟨.error e, ts.length⟩
      | .ok out => ⟨.ok (.listText out), ts.length⟩
    else ⟨.ok (.listRaw rs), ts.length⟩
  | .invalidInput =>
    ⟨.error (.raisedInvalidTextInput "text must be a string or an iterable of strings."), 0⟩

/-- `EasyTL.googletl_translate_async` (easytl.py lines 207-300): identical
validation and normalisation, with the iterable branch dispatched through
`asyncio.gather`; the completion schedule is explicit. -/
def googletl_translate_async (f : String → GoogleResp) (cr : CredOutcome)
    (text : TextInput) (response_type : String) (format : String)
    (schedule : List Nat) : DispatchOut GoogleResult :=
  match pyAssert (["text", "raw"].contains response_type)
        (.invalidResponseFormat "Invalid response type specified. Must be text or raw.") with
  | .error e => ⟨.error e, 0⟩
  | .ok _ =>
  match pyAssert (["text", "html"].contains format)
        (.invalidResponseFormat "Invalid format specified. Must be text or html.") with
  | .error e => ⟨.error e, 0⟩
  | .ok _ =>
  match testCredentials cr with
  | .error e => ⟨.error e, 0⟩
  | .ok _ =>
  match text with
  | .str s =>
    let r := f s
    (match pyAssert (!r.isList)
           (.malformedResponse "Malformed response received. Please try again.") with
     | .error e => ⟨.error e, 1⟩
     | .ok _ =>
       if response_type = "raw" then ⟨.ok (.scalarRaw r), 1⟩
       else
         match r.subscriptTranslatedText with
         | .error e => ⟨.error e, 1⟩
         | .ok t => ⟨.ok (.scalarText t), 1⟩)
  | .strList ts =>
    (match runGather f ts schedule with
     | none => ⟨.error .pending, 0⟩
     | some rs =>
       if response_type = "text" then
         match googletlExtractTexts rs with
         | .error e => ⟨.error e, ts.length⟩
         | .ok out => ⟨.ok (.listText out), ts.length⟩
       else ⟨.ok (.listRaw rs), ts.length⟩)
  | .invalidInput =>
    ⟨.error (.raisedInvalidTextInput "text must be a string or an iterable of strings."), 0⟩

/-! ### OpenAI backend dispatch (async) -/

/-- An OpenAI chat message; `content` is Optional in the SDK type. -/
structure ChatMessage where
  content : Option String
deriving DecidableEq, Repr

/-- One choice of a chat completion. -/
structure ChatChoice where
  message : ChatMessage
deriving DecidableEq, Repr

/-- The OpenAI ChatCompletion response object (content-bearing part). -/
structure ChatCompletion where
  choices : List ChatChoice
deriving DecidableEq, Repr

/-- Modelled from the spec: the OpenAI default translation instructions
(`OpenAIService._default_translation_instructions`, whose module is not under
src/).  The openai_translate doc string in src states that translation
instructions default to translating the text into English. -/
def openaiDefaultInstructions : String :=
  "Please translate the following text into English."

/-- Modelled from the spec: `OpenAIService._build_translation_batches` is not
under src/.  Spec section 3 (TranslationUnit, TranslationBatch): a single
string yields a batch of one unit, an iterable yields one unit per element in
order, and every unit is paired with the instructions. -/
def buildTranslationBatches (text : TextInput) (instr : String) :
    List (String × String) :=
  match text with
  | .str s => [(s, instr)]
  | .strList ts => ts.map (fun t => (t, instr))
  | .invalidInput => []

/-- Return shape of an openai translate call. -/
inductive OpenAIResult where
  | scalarText (s : String)
  | scalarRaw (r : ChatCompletion)
  | listText (ts : List String)
  | listRaw (rs : List ChatCompletion)
deriving DecidableEq, Repr

/-- The comprehension of easytl.py line 1016:
`[r.choices[0].message.content for r in results if r.choices[0].message.content is not None]`;
`choices[0]` on an empty choice list raises IndexError, and a None content is
silently skipped. -/
def openaiExtract : List ChatCompletion → Except PyErr (List String)
  | [] => .ok []
  | r :: rs =>
    match r.choices with
    | [] => .error (.indexError "list index out of range")
    | c :: _ =>
      match openaiExtract rs with
      | .error e => .error e
      | .ok acc =>
        match c.message.content with
        | none => .ok acc
        | some s => .ok (s :: acc)

/-- Python truthiness of `x or d` for an optional string. -/
def pyOr (x : Option String) (d : String) : String :=
  match x with
  | none => d
  | some s => if s = "" then d else s

/-- `EasyTL.openai_translate_async` (easytl.py lines 906-1020): response-type
assert, credential test (tuple discarded), instruction resolution, text-shape
assert, batch construction, gather, choices assert, content extraction with
None filtering, and list-vs-scalar collapse.  The backend per-unit call `f`
takes (instructions, text); `storedSystemMessage` models
`OpenAIService._system_message` read when `override` is false.  The LLM
settings write is irrelevant to the returned value and is not modelled
(the settings record of the OpenAI service is not under src/). -/
def openai_translate_async (f : String → String → ChatCompletion)
    (cr : CredOutcome) (text : TextInput) (response_type : String)
    (override : Bool) (translation_instructions : Option String)
    (storedSystemMessage : String) (schedule : List Nat) :
    DispatchOut OpenAIResult :=
  match pyAssert (["text", "raw", "json", "raw_json"].contains response_type)
        (.invalidResponseFormat "Invalid response type specified.") with
  | .error e => ⟨.error e, 0⟩
  | .ok _ =>
  match testCredentials cr with
  | .error e => ⟨.error e, 0⟩
  | .ok _ =>
  let instr := if override then pyOr translation_instructions openaiDefaultInstructions
               else storedSystemMessage
  match pyAssert (match text with | .invalidInput => false | _ => true)
        (.invalidTextInput "text must be a string, an iterable of strings, a ModelTranslationMessage or an iterable of ModelTranslationMessages.") with
  | .error e => ⟨.error e, 0⟩
  | .ok _ =>
  let batches := buildTranslationBatches text instr
  match runGather (fun p => f p.2 p.1) batches schedule with
  | none => ⟨.error .pending, 0⟩
  | some rs =>
    if ["raw", "raw_json"].contains response_type then
      match text with
      | .strList _ => ⟨.ok (.listRaw rs), batches.length⟩
      | _ =>
        match rs with
        | r :: _ => ⟨.ok (.scalarRaw r), batches.length⟩
        | [] => ⟨.error (.indexError "list index out of range"), batches.length⟩
    else
      match openaiExtract rs with
      | .error e => ⟨.error e, batches.length⟩
      | .ok contents =>
        match text with
        | .strList _ => ⟨.ok (.listText contents), batches.length⟩
        | _ =>
          match contents with
          | c :: _ => ⟨.ok (.scalarText c), batches.length⟩
          | [] => ⟨.error (.indexError "list index out of range"), batches.length⟩

/-! ### Gemini service and dispatch -/

/-- `GeminiService._default_translation_instructions`
(gemini_service.py line 21). -/
def geminiDefaultInstructions : String :=
  "Please translate the following text into English."

/-- `GeminiService._default_model` (gemini_service.py line 22). -/
def geminiDefaultModel : String := "gemini-pro"

/-- The Gemini Settings Record: the class attributes of `GeminiService`
written by `_set_attributes` (gemini_service.py lines 21-43, 123-140).
Sampling parameters are carried as rationals; the source stores `None` in
`_system_message` when the caller passes it, hence the Option. -/
structure GeminiSettings where
  model : String
  system_message : Option String
  temperature : Rat
  top_p : Rat
  top_k : Nat
  candidate_count : Nat
  stream : Bool
  stop_sequences : Option (List String)
  max_output_tokens : Option Nat
  semaphore_value : Nat
  log_directory : Option String
deriving DecidableEq, Repr

/-- The process-start defaults of the Gemini Settings Record
(gemini_service.py lines 21-43). -/
def defaultGeminiSettings : GeminiSettings :=
  { model := geminiDefaultModel
    system_message := some geminiDefaultInstructions
    temperature := 1 / 2
    top_p := 9 / 10
    top_k := 40
    candidate_count := 1
    stream := false
    stop_sequences := none
    max_output_tokens := none
    semaphore_value := 15
    log_directory := none }

/-- `GeminiService._set_attributes` (gemini_service.py lines 103-140): it
assigns every field it manages, and when the semaphore argument is None it
derives the semaphore value from the just-written model.  It takes no
previous record: the record is fully replaced. -/
def GeminiServiceSetAttributes (model : String) (system_message : Option String)
    (temperature : Rat) (top_p : Rat) (top_k : Nat) (candidate_count : Nat)
    (stream : Bool) (stop_sequences : Option (List String))
    (max_output_tokens : Option Nat) (semaphore : Option Nat)
    (logging_directory : Option String) : GeminiSettings :=
  { model := model
    system_message := system_message
    temperature := temperature
    top_p := top_p
    top_k := top_k
    candidate_count := candidate_count
    stream := stream
    stop_sequences := stop_sequences
    max_output_tokens := max_output_tokens
    semaphore_value :=
      match semaphore with
      | some v => v
      | none => if model ≠ "gemini--1.5-pro-latest" then 15 else 2
    log_directory := logging_directory }

/-- The parameter names accepted by `GeminiService._set_attributes`
(gemini_service.py lines 104-115). -/
def geminiSetAttributesParams : List String :=
  ["model", "system_message", "temperature", "top_p", "top_k",
   "candidate_count", "stream", "stop_sequences", "max_output_tokens",
   "semaphore", "logging_directory"]

/-- The keyword arguments the dispatcher passes to
`GeminiService._set_attributes` (easytl.py lines 624-638, and identically
lines 747-761 on the async path), in source order. -/
def geminiDispatchKwargs : List String :=
  ["model", "system_message", "temperature", "top_p", "top_k",
   "candidate_count", "stream", "stop_sequences", "max_output_tokens",
   "decorator", "logging_directory", "semaphore", "rate_limit_delay",
   "json_mode", "response_schema"]

/-- Python keyword-argument binding for a function without var-keyword
parameters: the first passed keyword that is not a parameter raises
TypeError. -/
def bindKwargs (accepted passed : List String) : Except PyErr Unit :=
  match passed.find? (fun k => !(accepted.contains k)) with
  | some k => .error (.typeError ("set_attributes got an unexpected keyword argument " ++ k))
  | none => .ok ()

/-- A raw Gemini response: the expected object with a `text` attribute, or a
list (malformed collection case; the element contents are irrelevant to the
dispatch core). -/
inductive GenResp where
  | resp (text : String)
  | coll (rs : List String)
deriving DecidableEq, Repr

/-- Python `not isinstance(r, list) and hasattr(r, "text")`. -/
def GenResp.isResp : GenResp → Bool
  | .resp _ => true
  | .coll _ => false

/-- Python attribute access `r.text`; on a list it raises AttributeError. -/
def GenResp.textAttr : GenResp → Except PyErr String
  | .resp t => .ok t
  | .coll _ => .error (.attributeError "list object has no attribute text")

/-- Python string interpolation of an optional string (None prints as
None). -/
def pyStrOpt : Option String → String
  | none => "None"
  | some s => s

/-- The request string built by `GeminiService.__translate_text` and its
async twin (gemini_service.py lines 266 and 296): the system message and the
unit, unless the model is the one that takes system instructions natively. -/
def geminiBuildRequest (s : GeminiSettings) (u : String) : String :=
  if s.model = "gemini--1.5-pro-latest" then u
  else pyStrOpt s.system_message ++ "\n" ++ u

/-- Return shape of a gemini translate call. -/
inductive GeminiResult where
  | scalarText (s : String)
  | scalarRaw (r : GenResp)
  | listText (ts : List String)
  | listRaw (rs : List GenResp)
deriving DecidableEq, Repr

/-- The comprehension `[r.text for r in results]`, left to right;
AttributeError on the first list-shaped element. -/
def geminiExtractTexts : List GenResp → Except PyErr (List String)
  | [] => .ok []
  | r :: rs =>
    match r.textAttr with
    | .error e => .error e
    | .ok t =>
      match geminiExtractTexts rs with
      | .error e => .error e
      | .ok ts => .ok (t :: ts)

/-- Outcome of one gemini dispatch call: result, number of translation
requests issued, and the final Settings Record. -/
structure GeminiRun (α : Type) where
  result : Except PyErr α
  requests : Nat
  final : GeminiSettings

/-- The settings write performed by `gemini_translate` when
`override_previous_settings` is true (easytl.py lines 623-641): the keyword
call into `_set_attributes` - whose binding fails on the first unexpected
keyword - followed, were it to succeed, by the full replacement and the
dependent `_system_message` write. -/
def geminiOverrideSettings (translation_instructions : Option String)
    (model : String) (temperature : Rat) (top_p : Rat) (top_k : Nat)
    (stop_sequences : Option (List String)) (max_output_tokens : Option Nat)
    (semaphore : Option Nat) : Except PyErr GeminiSettings :=
  match bindKwargs geminiSetAttributesParams geminiDispatchKwargs with
  | .error e => .error e
  | .ok _ =>
    let s1 := GeminiServiceSetAttributes model translation_instructions
      temperature top_p top_k 1 false stop_sequences max_output_tokens
      semaphore none
    let msg := some (pyOr translation_instructions geminiDefaultInstructions)
    .ok { s1 with system_message := msg }

/-- `EasyTL.gemini_translate` (easytl.py lines 553-661): response-type
assert, credential test (tuple discarded), settings write on override,
per-unit dispatch through `GeminiService._translate_text` with no retry
decorator installed (the dispatcher cannot install one: `_set_attributes`
takes no decorator), malformed-response assert, normalisation and collapse.
The argument-validation helpers and the logging decorator are external
collaborators (spec section 1) and are identity here; `net` is the external
SDK call `client.generate_content` applied to the built request. -/
def gemini_translate (s0 : GeminiSettings) (net : String → GenResp)
    (cr : CredOutcome) (text : TextInput) (response_type : String)
    (override : Bool) (translation_instructions : Option String)
    (model : String) (temperature : Rat) (top_p : Rat) (top_k : Nat)
    (stop_sequences : Option (List String)) (max_output_tokens : Option Nat) :
    GeminiRun GeminiResult :=
  match pyAssert (["text", "raw", "json", "raw_json"].contains response_type)
        (.invalidResponseFormat "Invalid response type specified. Must be text, raw, json or raw_json.") with
  | .error e => ⟨.error e, 0, s0⟩
  | .ok _ =>
  match testCredentials cr with
  | .error e => ⟨.error e, 0, s0⟩
  | .ok _ =>
  match (if override then
           geminiOverrideSettings translation_instructions model temperature
             top_p top_k stop_sequences max_output_tokens none
         else .ok s0) with
  | .error e => ⟨.error e, 0, s0⟩
  | .ok s1 =>
  match text with
  | .str u =>
    let r := net (geminiBuildRequest s1 u)
    (match pyAssert r.isResp
           (.malformedResponse "Malformed response received. Please try again.") with
     | .error e => ⟨.error e, 1, s1⟩
     | .ok _ =>
       if ["raw", "raw_json"].contains response_type then ⟨.ok (.scalarRaw r), 1, s1⟩
       else
         match r.textAttr with
         | .error e => ⟨.error e, 1, s1⟩
         | .ok t => ⟨.ok (.scalarText t), 1, s1⟩)
  | .strList ts =>
    let rs := ts.map (fun t => net (geminiBuildRequest s1 t))
    (match pyAssert (rs.all GenResp.isResp)
           (.malformedResponse "Malformed response received. Please try again.") with
     | .error e => ⟨.error e, ts.length, s1⟩
     | .ok _ =>
       if ["text", "json"].contains response_type then
         match geminiExtractTexts rs with
         | .error e => ⟨.error e, ts.length, s1⟩
         | .ok out => ⟨.ok (.listText out), ts.length, s1⟩
       else ⟨.ok (.listRaw rs), ts.length, s1⟩)
  | .invalidInput =>
    ⟨.error (.raisedInvalidTextInput "text must be a string or an iterable of strings."), 0, s1⟩

/-- `EasyTL.gemini_translate_async` (easytl.py lines 666-780): same
validation and settings write as the sync path (the semaphore keyword now
carries a value), but the dispatch has no malformed-response assert at all:
the scalar path reads `.text` directly off the awaited result and the
iterable path maps `.text` over the gathered results. -/
def gemini_translate_async (s0 : GeminiSettings) (net : String → GenResp)
    (cr : CredOutcome) (text : TextInput) (response_type : String)
    (override : Bool) (translation_instructions : Option String)
    (model : String) (temperature : Rat) (top_p : Rat) (top_k : Nat)
    (stop_sequences : Option (List String)) (max_output_tokens : Option Nat)
    (semaphore : Option Nat) (schedule : List Nat) : GeminiRun GeminiResult :=
  match pyAssert (["text", "raw", "json", "raw_json"].contains response_type)
        (.invalidResponseFormat "Invalid response type specified. Must be text, raw, json or raw_json.") with
  | .error e => ⟨.error e, 0, s0⟩
  | .ok _ =>
  match testCredentials cr with
  | .error e => ⟨.error e, 0, s0⟩
  | .ok _ =>
  match (if override then
           geminiOverrideSettings translation_instructions model temperature
             top_p top_k stop_sequences max_output_tokens semaphore
         else .ok s0) with
  | .error e => ⟨.error e, 0, s0⟩
  | .ok s1 =>
  match text with
  | .str u =>
    let r := net (geminiBuildRequest s1 u)
    (if ["raw", "raw_json"].contains response_type then ⟨.ok (.scalarRaw r), 1, s1⟩
     else
       match r.textAttr with
       | .error e => ⟨.error e, 1, s1⟩
       | .ok t => ⟨.ok (.scalarText t), 1, s1⟩)
  | .strList ts =>
    (match runGather (fun t => net (geminiBuildRequest s1 t)) ts schedule with
     | none => ⟨.error .pending, 0, s1⟩
     | some rs =>
       if ["text", "json"].contains response_type then
         match geminiExtractTexts rs with
         | .error e => ⟨.error e, ts.length, s1⟩
         | .ok out => ⟨.ok (.listText out), ts.length, s1⟩
       else ⟨.ok (.listRaw rs), ts.length, s1⟩)
  | .invalidInput =>
    ⟨.error (.raisedInvalidTextInput "text must be a string or an iterable of strings."), 0, s1⟩

/-! ### Gemini cost calculation -/

/-- A cost-calculation text argument: a string or a list of strings (both
are Python Iterables, and `isinstance(text, typing.Iterable)` is true for
both). -/
inductive CostText where
  | str (s : String)
  | strList (ts : List String)
deriving DecidableEq, Repr

/-- Python `len(text)`: character count of a string, element count of a
list. -/
def pyLenCost : CostText → Nat
  | .str s => s.length
  | .strList ts => ts.length

/-- Python string repetition `s * n`. -/
def strRepeat (s : String) : Nat → String
  | 0 => ""
  | n + 1 => s ++ strRepeat s n

/-- Modelled from the spec: `_convert_iterable_to_str`
(src/easytl/util/util.py, not under src/).  Spec section 4.5: the core passes
the concatenation of instructions and text to the estimator, so the iterable
is flattened by concatenation; iterating a string yields its characters, so
on a string it is the identity. -/
def convertIterableToStr : CostText → String
  | .str s => s
  | .strList ts => String.join ts

/-- `GeminiService._calculate_cost` (gemini_service.py lines 361-403) up to
the external estimator call: returns the string handed to the estimator and
the model name used.  Both CostText shapes satisfy Python's
`isinstance(text, typing.Iterable)`, so the instruction-replication branch
runs for a plain string as well, repeating the instructions `len(text)` -
that is, once per character - times; applying `_convert_iterable_to_str` to
the (string) instructions is the identity under the concatenation model. -/
def gemini_calculate_cost (text : CostText)
    (translation_instructions : Option String) (model : Option String) :
    String × String :=
  let instr0 := match translation_instructions with
    | none => geminiDefaultInstructions
    | some s => s
  let instrRep := strRepeat instr0 (pyLenCost text)
  let textStr := convertIterableToStr text
  let model0 := match model with
    | none => geminiDefaultModel
    | some m => m
  (instrRep ++ "\n" ++ textStr, model0)

/-! ### Decorator injection (retry) model -/

/-- `GeminiService.__translate_text` as the undecorated primitive
(gemini_service.py lines 252-275): called with the translation unit, it
builds the request from that unit and performs the external network call;
`net` maps (attempt index, request) to the outcome, a transient failure or a
response. -/
def geminiUnderlyingCall (s : GeminiSettings)
    (net : Nat → String → Except Unit GenResp) (attempt : Nat)
    (text_to_translate : String) : Except Unit GenResp :=
  net attempt (geminiBuildRequest s text_to_translate)

/-- Retry loop of a caller-supplied decorator: try the wrapped callable with
the same argument until it succeeds or the attempt budget is exhausted,
recording the argument passed on each attempt. -/
def runRetry (g : Nat → String → Except Unit GenResp) (u : String) :
    Nat → Nat → Except Unit GenResp × List String
  | 0, _ => (.error (), [])
  | fuel + 1, attempt =>
    match g attempt u with
    | .ok r => (.ok r, [u])
    | .error _ =>
      let next := runRetry g u fuel (attempt + 1)
      (next.1, u :: next.2)

/-- Modelled from the spec: the decorator factory is caller-supplied
(external collaborator).  Spec section 4.2: applied to a plain single-unit
translate function it yields a callable that retries that function according
to its policy, re-invoking it with the same argument. -/
def retryDecorator (maxAttempts : Nat)
    (g : Nat → String → Except Unit GenResp) :
    String → Except Unit GenResp × List String :=
  fun u => runRetry g u maxAttempts 0

/-- `GeminiService._translate_text` (gemini_service.py lines 228-247): when
a decorator is installed it is applied to the innermost undecorated
`__translate_text` and the decorated callable is invoked with the translation
unit; otherwise the plain primitive is called.  The second component is the
list of arguments the undecorated primitive received, one per attempt. -/
def geminiTranslateTextUnit (s : GeminiSettings)
    (net : Nat → String → Except Unit GenResp) (decoratorSupplied : Bool)
    (maxAttempts : Nat) (u : String) : Except Unit GenResp × List String :=
  if decoratorSupplied then
    retryDecorator maxAttempts (geminiUnderlyingCall s net) u
  else
    (geminiUnderlyingCall s net 0 u, [u])

/-! ### Bounded-concurrency (semaphore) model

`GeminiService._translate_text_async` is wrapped by
`_redefine_client_decorator`, a plain synchronous wrapper: the client,
generation config and semaphore are rebuilt at coroutine-construction time,
before `asyncio.gather` runs anything, so every unit task of a batch
acquires the one semaphore built by the last `_redefine_client` call.  Each
unit coroutine (gemini_service.py lines 280-305) acquires that semaphore,
issues its request while holding it, and releases it when the response (or
failure) is obtained - the `async with` block.  The transition system below
has exactly these two events. -/

/-- The client-side state rebuilt by `GeminiService._redefine_client`
(gemini_service.py lines 145-172); the semaphore is rebuilt with capacity
`_semaphore_value`. -/
structure GeminiClientState where
  semCapacity : Nat
deriving DecidableEq, Repr

/-- `GeminiService._redefine_client`, restricted to the concurrency-relevant
effect: the semaphore is rebuilt with capacity equal to the currently
configured value. -/
def geminiRedefineClient (s : GeminiSettings) : GeminiClientState :=
  ⟨s.semaphore_value⟩

/-- Phase of one unit task: not yet started, holding the semaphore with its
request in flight, or finished (semaphore released). -/
inductive TaskPhase where
  | ready
  | running
  | finished
deriving DecidableEq, Repr

/-- Global state of one async batch: available semaphore permits and the
phase of every unit task. -/
structure SemExecState where
  avail : Nat
  tasks : List TaskPhase
deriving DecidableEq, Repr

/-- Number of unit requests currently in flight. -/
def inFlightCount (st : SemExecState) : Nat :=
  st.tasks.countP (fun p => p == TaskPhase.running)

/-- Initial state of a batch of `n` unit tasks sharing a semaphore of
capacity `c`. -/
def semInit (c n : Nat) : SemExecState :=
  ⟨c, List.replicate n TaskPhase.ready⟩

/-- One scheduler event: a ready task acquires the semaphore (possible only
when a permit is available) and issues its request, or a running task obtains
its response and releases the semaphore.  A request is issued only by the
acquire event, so a task always holds the semaphore while its request is in
flight. -/
inductive SemStep : SemExecState → SemExecState → Prop where
  | acquire (st : SemExecState) (i : Nat)
      (hi : st.tasks[i]? = some TaskPhase.ready) (ha : 0 < st.avail) :
      SemStep st ⟨st.avail - 1, st.tasks.set i TaskPhase.running⟩
  | release (st : SemExecState) (i : Nat)
      (hi : st.tasks[i]? = some TaskPhase.running) :
      SemStep st ⟨st.avail + 1, st.tasks.set i TaskPhase.finished⟩

/-- States reachable by the cooperative scheduler from the initial batch
state. -/
inductive SemReach (c n : Nat) : SemExecState → Prop where
  | init : SemReach c n (semInit c n)
  | step {st st' : SemExecState} :
      SemReach c n st → SemStep st st' → SemReach c n st'

/-! ### Concrete instantiations used by counterexamples and evaluations -/

/-- Inject a well-formed (dict-shaped) Google client into the dispatch. -/
def dictify (f : String → GoogleDict) : String → GoogleResp :=
  fun t => .dict (f t)

/-- Inject a content-producing OpenAI client: every response has one choice
whose content is present. -/
def contentify (g : String → String → String) :
    String → String → ChatCompletion :=
  fun instr t => ⟨[⟨⟨some (g instr t)⟩⟩]⟩

/-- An OpenAI client whose responses carry no textual content. -/
def openaiNoContentClient : String → String → ChatCompletion :=
  fun _ _ => ⟨[⟨⟨none⟩⟩]⟩

/-- An OpenAI client with content for some inputs only: the unit "a" comes
back without content, every other unit with a tagged content. -/
def openaiPartialClient : String → String → ChatCompletion :=
  fun _ t => if t = "a" then ⟨[⟨⟨none⟩⟩]⟩ else ⟨[⟨⟨some ("T:" ++ t)⟩⟩]⟩

/-- A Gemini network function answering every request with a tagged
response. -/
def geminiEchoNet : String → GenResp :=
  fun req => .resp ("G:" ++ req)

/-- A Gemini network function returning a collection (malformed). -/
def geminiMalformedNet : String → GenResp :=
  fun _ => .coll []

/-- A well-formed Google client echoing its input. -/
def googleEchoClient : String → GoogleDict :=
  fun t => ⟨"TL:" ++ t⟩

/-- An OpenAI content producer echoing its unit. -/
def openaiEchoClient : String → String → String :=
  fun _ t => "T:" ++ t

/-- A fault-free attempt-indexed Gemini network function echoing the
request. -/
def geminiOkNet : Nat → String → Except Unit GenResp :=
  fun _ req => .ok (.resp req)

/-- An attempt-indexed Gemini network function that fails transiently on the
first two attempts and succeeds afterwards. -/
def geminiFlakyNet : Nat → String → Except Unit GenResp :=
  fun attempt req => if attempt < 2 then .error () else .ok (.resp req)

/-! ## Helper lemmas -/

theorem fillSlots_length (r : Nat → Option β) :
    ∀ (sch : List Nat) (slots : List (Option β)),
      (fillSlots r sch slots).length = slots.length
  | [], _ => rfl
  | j :: rest, slots => by
      rw [fillSlots, fillSlots_length r rest, List.length_set]

theorem fillSlots_getElem? (r : Nat → Option β) :
    ∀ (sch : List Nat) (slots : List (Option β)) (i : Nat), i < slots.length →
      (fillSlots r sch slots)[i]? = if i ∈ sch then some (r i) else slots[i]?
  | [], slots, i, _ => by simp [fillSlots]
  | j :: rest, slots, i, hi => by
      rw [fillSlots,
        fillSlots_getElem? r rest (slots.set j (r j)) i (by simpa using hi)]
      by_cases hij : i = j
      · subst hij
        simp [List.getElem?_set_eq_of_lt, hi]
      · rw [List.getElem?_set_ne (show j ≠ i from fun h => hij h.symm)]
        simp [List.mem_cons, hij]

theorem allSome_map_some : ∀ l : List β, allSome (l.map some) = some l
  | [] => rfl
  | b :: l => by rw [List.map_cons, allSome, allSome_map_some l]; rfl

theorem runGather_complete (f : α → β) (inputs : List α) (sch : List Nat)
    (h : CompleteSchedule inputs.length sch) :
    runGather f inputs sch = some (inputs.map f) := by
  have hfill :
      fillSlots (fun j => inputs[j]?.map f) sch
          (List.replicate inputs.length none)
        = (inputs.map f).map some := by
    apply List.ext_getElem?
    intro i
    by_cases hi : i < inputs.length
    · rw [fillSlots_getElem? _ sch _ i (by simpa using hi), if_pos (h i hi)]
      simp [List.getElem?_map, List.getElem?_eq_getElem, hi]
    · rw [List.getElem?_eq_none, List.getElem?_eq_none]
      · simpa using Nat.le_of_not_lt hi
      · rw [fillSlots_length]
        simpa using Nat.le_of_not_lt hi
  rw [runGather, hfill, allSome_map_some]

theorem googletlExtractTexts_dictify (f : String → GoogleDict) :
    ∀ ts : List String,
      googletlExtractTexts (ts.map (dictify f))
        = .ok (ts.map (fun t => (f t).translatedText))
  | [] => rfl
  | t :: ts => by
      rw [List.map_cons, List.map_cons, googletlExtractTexts,
        googletlExtractTexts_dictify f ts]
      rfl

theorem openaiExtract_contentify (g : String → String → String) (instr : String) :
    ∀ ts : List String,
      openaiExtract (ts.map (fun t => contentify g instr t))
        = .ok (ts.map (fun t => g instr t))
  | [] => rfl
  | t :: ts => by
      rw [List.map_cons, List.map_cons, openaiExtract,
        openaiExtract_contentify g instr ts]
      rfl

theorem runRetry_args (g : Nat → String → Except Unit GenResp) (u : String) :
    ∀ (fuel attempt : Nat), ∀ a ∈ (runRetry g u fuel attempt).2, a = u := by
  intro fuel
  induction fuel with
  | zero => intro attempt a ha; simp [runRetry] at ha
  | succ n ih =>
      intro attempt a ha
      rw [runRetry] at ha
      cases hg : g attempt u with
      | ok r => rw [hg] at ha; simpa using ha
      | error e =>
          rw [hg] at ha
          simp only [List.mem_cons] at ha
          rcases ha with h | h
          · exact h
          · exact ih (attempt + 1) a h

theorem countP_set_add (p : α → Bool) :
    ∀ (l : List α) (i : Nat) (a b : α), l[i]? = some b →
      (l.set i a).countP p + (if p b then 1 else 0)
        = l.countP p + (if p a then 1 else 0)
  | [], i, _, _, hb => by simp at hb
  | x :: l, 0, a, b, hb => by
      simp only [List.getElem?_cons_zero, Option.some.injEq] at hb
      subst hb
      simp [List.set, List.countP_cons]
      omega
  | x :: l, i + 1, a, b, hb => by
      simp only [List.getElem?_cons_succ] at hb
      simp only [List.set, List.countP_cons]
      have := countP_set_add p l i a b hb
      omega

theorem countP_running_replicate_ready (n : Nat) :
    (List.replicate n TaskPhase.ready).countP (fun p => p == TaskPhase.running)
      = 0 := by
  induction n with
  | zero => rfl
  | succ k ih => rw [List.replicate_succ, List.countP_cons]; simp [ih]

theorem semStep_invariant {st st' : SemExecState} (hs : SemStep st st')
    (c : Nat) (ih : st.avail + inFlightCount st = c) :
    st'.avail + inFlightCount st' = c := by
  cases hs with
  | acquire i hi ha =>
      have hcnt := countP_set_add (fun p => p == TaskPhase.running)
        st.tasks i TaskPhase.running TaskPhase.ready hi
      simp only [inFlightCount] at ih ⊢
      simp only [show (TaskPhase.ready == TaskPhase.running) = false from rfl,
        show (TaskPhase.running == TaskPhase.running) = true from rfl,
        if_false, if_true, Bool.false_eq_true] at hcnt
      omega
  | release i hi =>
      have hcnt := countP_set_add (fun p => p == TaskPhase.running)
        st.tasks i TaskPhase.finished TaskPhase.running hi
      simp only [inFlightCount] at ih ⊢
      simp only [show (TaskPhase.finished == TaskPhase.running) = false from rfl,
        show (TaskPhase.running == TaskPhase.running) = true from rfl,
        if_false, if_true, Bool.false_eq_true] at hcnt
      omega

theorem semReach_invariant (c n : Nat) (st : SemExecState)
    (h : SemReach c n st) : st.avail + inFlightCount st = c := by
  induction h with
  | init => simp [semInit, inFlightCount, countP_running_replicate_ready]
  | step h1 h2 ih => exact semStep_invariant h2 c ih

theorem bindKwargs_gemini :
    bindKwargs geminiSetAttributesParams geminiDispatchKwargs
      = .error (.typeError
          "set_attributes got an unexpected keyword argument decorator") := by
  rfl

theorem pyAssert_of_true {c : Bool} (h : c = true) (msg : AssertMsg) :
    pyAssert c msg = .ok () := by
  simp [pyAssert, h]

/-! ## Claim theorems -/

/-- C3: every call to gemini_translate or gemini_translate_async with
override_previous_settings = true (the default) raises a TypeError during the
settings write - the dispatcher passes the keywords decorator,
rate_limit_delay, json_mode and response_schema, which
GeminiService._set_attributes does not accept - and no translation request
has been issued when it does.  (The credential-test request and the
response-type assert run first, hence the two hypotheses.) -/
theorem claim_C3_override_typeerror (s0 : GeminiSettings)
    (net : String → GenResp) (cr : CredOutcome) (text : TextInput)
    (rt : String) (instr : Option String) (model : String)
    (temperature top_p : Rat) (top_k : Nat) (ss : Option (List String))
    (mot : Option Nat) (sem : Option Nat) (sch : List Nat)
    (hrt : (["text", "raw", "json", "raw_json"].contains rt) = true)
    (hcr : cr ≠ CredOutcome.invalidUnexpected) :
    (gemini_translate s0 net cr text rt true instr model temperature top_p
        top_k ss mot).result
      = .error (.typeError
          "set_attributes got an unexpected keyword argument decorator")
    ∧ (gemini_translate s0 net cr text rt true instr model temperature top_p
        top_k ss mot).requests = 0
    ∧ (gemini_translate_async s0 net cr text rt true instr model temperature
        top_p top_k ss mot sem sch).result
      = .error (.typeError
          "set_attributes got an unexpected keyword argument decorator")
    ∧ (gemini_translate_async s0 net cr text rt true instr model temperature
        top_p top_k ss mot sem sch).requests = 0 := by
  have h2 : (decide (rt = "text") || (decide (rt = "raw")
      || (decide (rt = "json") || decide (rt = "raw_json")))) = true := by
    simpa using hrt
  cases cr with
  | invalidUnexpected => exact absurd rfl hcr
  | valid =>
      refine ⟨?_, ?_, ?_, ?_⟩ <;>
        simp [gemini_translate, gemini_translate_async, pyAssert_of_true h2,
          testCredentials, geminiOverrideSettings, bindKwargs_gemini]
  | invalidExpected =>
      refine ⟨?_, ?_, ?_, ?_⟩ <;>
        simp [gemini_translate, gemini_translate_async, pyAssert_of_true h2,
          testCredentials, geminiOverrideSettings, bindKwargs_gemini]

theorem claim_C3_witness :
    ((["text", "raw", "json", "raw_json"].contains "text") = true)
    ∧ (gemini_translate defaultGeminiSettings geminiEchoNet .valid
        (.str "hello") "text" true none "gemini-pro" (1 / 2) (9 / 10) 40
        none none).result
      = .error (.typeError
          "set_attributes got an unexpected keyword argument decorator") :=
  ⟨by decide,
   (claim_C3_override_typeerror defaultGeminiSettings geminiEchoNet .valid
     (.str "hello") "text" none "gemini-pro" (1 / 2) (9 / 10) 40 none none
     none [] (by decide) (by decide)).1⟩

/-- C4: the spec claims that an unsupported response_type fails with the
typed InvalidResponseFormatException before any request is sent.  Evaluating
googletl_translate at the unsupported value xml: no request is issued, but
the failure is an AssertionError merely carrying an
InvalidResponseFormatException instance as its message (Python assert
semantics), not a raised InvalidResponseFormatException. -/
theorem claim_C4_assert_not_typed :
    (googletl_translate (dictify googleEchoClient) .valid (.str "hello")
        "xml" "text").result
      = .error (.assertionError (.invalidResponseFormat
          "Invalid response type specified. Must be text or raw."))
    ∧ (googletl_translate (dictify googleEchoClient) .valid (.str "hello")
        "xml" "text").requests = 0 :=
  ⟨rfl, rfl⟩

/-- C5: the spec claims a collection-shaped per-unit response raises the
classified MalformedResponse error on async paths as well as sync paths.
Evaluating gemini_translate_async on a scalar input whose backend call
returns a list: the async path has no malformed-response check and fails
with the downstream AttributeError from reading `.text` off a list, after
the request was issued. -/
theorem claim_C5_async_attribute_error :
    (gemini_translate_async defaultGeminiSettings geminiMalformedNet .valid
        (.str "hello") "text" false none "gemini-pro" (1 / 2) (9 / 10) 40
        none none (some 5) []).result
      = .error (.attributeError "list object has no attribute text")
    ∧ (gemini_translate_async defaultGeminiSettings geminiMalformedNet .valid
        (.str "hello") "text" false none "gemini-pro" (1 / 2) (9 / 10) 40
        none none (some 5) []).requests = 1 :=
  ⟨rfl, rfl⟩

/-- C6: the spec claims that when test_credentials reports the credentials
invalid, the translate call raises a credential exception before any request
is issued.  Evaluating gemini_translate with a credential test that reports
invalid (with an exception of the expected family): test_credentials returns
the tuple (False, e), the dispatcher discards it, issues the translation
request anyway and returns a successful result. -/
theorem claim_C6_invalid_creds_dispatches :
    testCredentials .invalidExpected = .ok false
    ∧ (gemini_translate defaultGeminiSettings geminiEchoNet .invalidExpected
        (.str "hello") "text" false none "gemini-pro" (1 / 2) (9 / 10) 40
        none none).result
      = .ok (.scalarText
          ("G:" ++ geminiBuildRequest defaultGeminiSettings "hello"))
    ∧ (gemini_translate defaultGeminiSettings geminiEchoNet .invalidExpected
        (.str "hello") "text" false none "gemini-pro" (1 / 2) (9 / 10) 40
        none none).requests = 1 :=
  ⟨rfl, rfl, rfl⟩

/-- C8: the spec claims that with override_previous_settings = true the
Settings Record is fully replaced.  Evaluating gemini_translate with
override = true and a new model name: the call fails with TypeError inside
the _set_attributes keyword call before any field is written, so the record
is left unchanged - in particular the model field still holds its old value,
which differs from the requested one. -/
theorem claim_C8_override_leaves_record :
    (gemini_translate defaultGeminiSettings geminiEchoNet .valid
        (.str "hello") "text" true none "gemini-1.5-flash" (1 / 2) (9 / 10)
        40 none none).result
      = .error (.typeError
          "set_attributes got an unexpected keyword argument decorator")
    ∧ (gemini_translate defaultGeminiSettings geminiEchoNet .valid
        (.str "hello") "text" true none "gemini-1.5-flash" (1 / 2) (9 / 10)
        40 none none).final = defaultGeminiSettings
    ∧ defaultGeminiSettings.model ≠ "gemini-1.5-flash" :=
  ⟨rfl, rfl, by decide⟩

/-- C9: the spec claims the instructions string is replicated exactly once
per batch element before estimation (a scalar string being a batch of one).
Evaluating gemini_calculate_cost: for the scalar string hi (one batch
element, two characters) the estimator input holds two copies of the
instructions, because the replication factor is len(text), the character
count; for a two-element list the factor is the element count, which does
match the claim. -/
theorem claim_C9_scalar_replication :
    gemini_calculate_cost (.str "hi") (some "T") none
      = ("TT" ++ "\n" ++ "hi", "gemini-pro")
    ∧ gemini_calculate_cost (.strList ["a", "b"]) (some "T") none
      = ("TT" ++ "\n" ++ "ab", "gemini-pro")
    ∧ strRepeat "T" (pyLenCost (.str "hi")) ≠ "T" :=
  ⟨rfl, rfl, by decide⟩

/-- C7: with a decorator factory supplied, and the underlying call
succeeding without failure, the decorated per-unit call returns the same
result as the plain undecorated call; and on every attempt - whatever the
fault pattern - the primitive receives the translation unit's original
argument value, because the decorator is applied to the innermost
undecorated function and invoked with the unit itself
(gemini_service.py lines 243-247). -/
theorem claim_C7_decorator_equivalence (s : GeminiSettings)
    (net : Nat → String → Except Unit GenResp) (m : Nat) (u : String)
    (r : GenResp) (hok : net 0 (geminiBuildRequest s u) = .ok r) :
    geminiTranslateTextUnit s net true (m + 1) u = (.ok r, [u])
    ∧ geminiTranslateTextUnit s net true (m + 1) u
        = geminiTranslateTextUnit s net false 0 u
    ∧ ∀ (net2 : Nat → String → Except Unit GenResp) (k : Nat),
        ∀ a ∈ (geminiTranslateTextUnit s net2 true k u).2, a = u := by
  refine ⟨?_, ?_, ?_⟩
  · simp [geminiTranslateTextUnit, retryDecorator, runRetry,
      geminiUnderlyingCall, hok]
  · simp [geminiTranslateTextUnit, retryDecorator, runRetry,
      geminiUnderlyingCall, hok]
  · intro net2 k a ha
    simp only [geminiTranslateTextUnit, retryDecorator, if_true] at ha
    exact runRetry_args (geminiUnderlyingCall s net2) u k 0 a ha

theorem claim_C7_witness :
    geminiOkNet 0 (geminiBuildRequest defaultGeminiSettings "bonjour")
      = .ok (.resp (geminiBuildRequest defaultGeminiSettings "bonjour"))
    ∧ geminiTranslateTextUnit defaultGeminiSettings geminiOkNet true 1 "bonjour"
      = (.ok (.resp (geminiBuildRequest defaultGeminiSettings "bonjour")),
         ["bonjour"]) :=
  ⟨rfl,
   (claim_C7_decorator_equivalence defaultGeminiSettings geminiOkNet 0
     "bonjour" (.resp (geminiBuildRequest defaultGeminiSettings "bonjour"))
     rfl).1⟩

/-- C10: in bounded-concurrent mode every unit task holds the counting
semaphore while its request is in flight (requests are issued only by the
acquire event of SemStep and released on completion), so in every reachable
state of a batch sharing a semaphore of capacity c at most c unit requests
are in flight; and the semaphore rebuilt by _redefine_client has capacity
equal to the currently configured concurrency limit. -/
theorem claim_C10_semaphore_bound (c n : Nat) (st : SemExecState)
    (h : SemReach c n st) :
    inFlightCount st ≤ c
    ∧ ∀ gs : GeminiSettings,
        (geminiRedefineClient gs).semCapacity = gs.semaphore_value := by
  refine ⟨?_, fun gs => rfl⟩
  have := semReach_invariant c n st h
  omega

theorem claim_C10_witness :
    inFlightCount ⟨1, [TaskPhase.running, TaskPhase.ready, TaskPhase.ready]⟩ ≤ 2 :=
  (claim_C10_semaphore_bound 2 3
    ⟨1, [TaskPhase.running, TaskPhase.ready, TaskPhase.ready]⟩
    (SemReach.step SemReach.init
      (SemStep.acquire (semInit 2 3) 0 rfl (by decide)))).1

/-- C1 (amended): a single-string input yields a scalar result of the type
matching the ResponseMode and an iterable of N strings yields the ordered
list of its per-unit normalized results (hence exactly N of them) - for the
googletl sync and async paths unconditionally, and for the openai async path
provided every unit response carries textual content; units whose response
lacks content are dropped there, so without that proviso the list can be
shorter than N. -/
theorem claim_C1_amended (f : String → GoogleDict) (g : String → String → String)
    (cr : CredOutcome) (s : String) (ts : List String) (m : String)
    (sch1 sch2 sch3 : List Nat) (hcr : cr ≠ CredOutcome.invalidUnexpected)
    (h1 : CompleteSchedule ts.length sch1)
    (h2 : CompleteSchedule ts.length sch2)
    (h3 : CompleteSchedule 1 sch3) :
    (googletl_translate (dictify f) cr (.str s) "text" "text").result
      = .ok (.scalarText (f s).translatedText)
    ∧ (googletl_translate (dictify f) cr (.str s) "raw" "text").result
      = .ok (.scalarRaw (.dict (f s)))
    ∧ (googletl_translate (dictify f) cr (.strList ts) "text" "text").result
      = .ok (.listText (ts.map (fun t => (f t).translatedText)))
    ∧ (googletl_translate_async (dictify f) cr (.strList ts) "text" "text"
        sch1).result
      = .ok (.listText (ts.map (fun t => (f t).translatedText)))
    ∧ (openai_translate_async (contentify g) cr (.strList ts) "text" true
        none m sch2).result
      = .ok (.listText (ts.map (fun t => g openaiDefaultInstructions t)))
    ∧ (openai_translate_async (contentify g) cr (.str s) "text" true
        none m sch3).result
      = .ok (.scalarText (g openaiDefaultInstructions s)) := by
  have hg1 := runGather_complete (dictify f) ts sch1 h1
  have hlen2 : (buildTranslationBatches (TextInput.strList ts)
      openaiDefaultInstructions).length = ts.length := by
    simp [buildTranslationBatches]
  have hg2 := runGather_complete
    (fun p : String × String => contentify g p.2 p.1)
    (buildTranslationBatches (TextInput.strList ts) openaiDefaultInstructions)
    sch2 (hlen2 ▸ h2)
  have hlen3 : (buildTranslationBatches (TextInput.str s)
      openaiDefaultInstructions).length = 1 := by
    simp [buildTranslationBatches]
  have hg3 := runGather_complete
    (fun p : String × String => contentify g p.2 p.1)
    (buildTranslationBatches (TextInput.str s) openaiDefaultInstructions)
    sch3 (hlen3 ▸ h3)
  have hmap : (buildTranslationBatches (TextInput.strList ts)
        openaiDefaultInstructions).map
        (fun p : String × String => contentify g p.2 p.1)
      = ts.map (fun t => contentify g openaiDefaultInstructions t) := by
    simp [buildTranslationBatches, List.map_map, Function.comp]
  cases cr with
  | invalidUnexpected => exact absurd rfl hcr
  | valid =>
      refine ⟨?_, ?_, ?_, ?_, ?_, ?_⟩
      · simp [googletl_translate, pyAssert, testCredentials, dictify,
          GoogleResp.isList, GoogleResp.subscriptTranslatedText]
      · simp [googletl_translate, pyAssert, testCredentials, dictify,
          GoogleResp.isList]
      · simp [googletl_translate, pyAssert, testCredentials,
          googletlExtractTexts_dictify]
      · simp [googletl_translate_async, pyAssert, testCredentials, hg1,
          googletlExtractTexts_dictify]
      · rw [hmap] at hg2
        simp [openai_translate_async, pyAssert, testCredentials, pyOr, hg2,
          openaiExtract_contentify]
      · have hg3n := hg3
        simp [buildTranslationBatches, contentify] at hg3n
        simp [openai_translate_async, pyAssert, testCredentials, pyOr,
          buildTranslationBatches, contentify, hg3n, openaiExtract]
  | invalidExpected =>
      refine ⟨?_, ?_, ?_, ?_, ?_, ?_⟩
      · simp [googletl_translate, pyAssert, testCredentials, dictify,
          GoogleResp.isList, GoogleResp.subscriptTranslatedText]
      · simp [googletl_translate, pyAssert, testCredentials, dictify,
          GoogleResp.isList]
      · simp [googletl_translate, pyAssert, testCredentials,
          googletlExtractTexts_dictify]
      · simp [googletl_translate_async, pyAssert, testCredentials, hg1,
          googletlExtractTexts_dictify]
      · rw [hmap] at hg2
        simp [openai_translate_async, pyAssert, testCredentials, pyOr, hg2,
          openaiExtract_contentify]
      · have hg3n := hg3
        simp [buildTranslationBatches, contentify] at hg3n
        simp [openai_translate_async, pyAssert, testCredentials, pyOr,
          buildTranslationBatches, contentify, hg3n, openaiExtract]

/-- C1 (counterexample): on the openai async path with response_type text, a
batch of one string whose backend response carries no content returns a list
of length 0, not 1: the claimed "ordered list of exactly N normalized
results, even when N = 1" fails. -/
theorem claim_C1_counterexample :
    (openai_translate_async openaiNoContentClient .valid
        (.strList ["hello"]) "text" true none "sys" [0]).result
      = .ok (.listText [])
    ∧ ¬ (List.length ([] : List String)
          = List.length ["hello"]) :=
  ⟨rfl, by decide⟩

theorem claim_C1_witness :
    CompleteSchedule 2 [1, 0] ∧ CompleteSchedule 2 [0, 1]
    ∧ CompleteSchedule 1 [0]
    ∧ (googletl_translate (dictify googleEchoClient) .valid (.str "hello")
        "text" "text").result = .ok (.scalarText "TL:hello")
    ∧ (googletl_translate_async (dictify googleEchoClient) .valid
        (.strList ["hello", "world"]) "text" "text" [1, 0]).result
      = .ok (.listText ["TL:hello", "TL:world"])
    ∧ (openai_translate_async (contentify openaiEchoClient) .valid
        (.strList ["hello", "world"]) "text" true none "sys" [0, 1]).result
      = .ok (.listText ["T:hello", "T:world"]) :=
  ⟨by decide, by decide, by decide,
   (claim_C1_amended googleEchoClient openaiEchoClient .valid "hello"
     ["hello", "world"] "sys" [1, 0] [0, 1] [0] (by decide) (by decide)
     (by decide) (by decide)).1,
   (claim_C1_amended googleEchoClient openaiEchoClient .valid "hello"
     ["hello", "world"] "sys" [1, 0] [0, 1] [0] (by decide) (by decide)
     (by decide) (by decide)).2.2.2.1,
   (claim_C1_amended googleEchoClient openaiEchoClient .valid "hello"
     ["hello", "world"] "sys" [1, 0] [0, 1] [0] (by decide) (by decide)
     (by decide) (by decide)).2.2.2.2.1⟩

/-- C2 (amended): on an async path whose normalization drops no unit
(googletl here), the returned batch is index-correlated to the inputs and
independent of the completion order: any two complete completion schedules
give the same outcome, that outcome is the in-order list of per-unit
normalized results, and its i-th element is the normalized result of the
i-th input for every i < N.  On the openai text path, units whose response
lacks content are dropped first, which breaks the index correlation (see the
counterexample). -/
theorem claim_C2_amended (f : String → GoogleDict) (cr : CredOutcome)
    (ts : List String) (sch1 sch2 : List Nat)
    (hcr : cr ≠ CredOutcome.invalidUnexpected)
    (h1 : CompleteSchedule ts.length sch1)
    (h2 : CompleteSchedule ts.length sch2) :
    googletl_translate_async (dictify f) cr (.strList ts) "text" "text" sch1
      = googletl_translate_async (dictify f) cr (.strList ts) "text" "text" sch2
    ∧ (googletl_translate_async (dictify f) cr (.strList ts) "text" "text"
        sch1).result
      = .ok (.listText (ts.map (fun t => (f t).translatedText)))
    ∧ ∀ i, i < ts.length →
        (ts.map (fun t => (f t).translatedText))[i]?
          = ts[i]?.map (fun t => (f t).translatedText) := by
  have hg1 := runGather_complete (dictify f) ts sch1 h1
  have hg2 := runGather_complete (dictify f) ts sch2 h2
  cases cr with
  | invalidUnexpected => exact absurd rfl hcr
  | valid =>
      refine ⟨?_, ?_, ?_⟩
      · simp [googletl_translate_async, pyAssert, testCredentials, hg1, hg2]
      · simp [googletl_translate_async, pyAssert, testCredentials, hg1,
          googletlExtractTexts_dictify]
      · intro i _
        simp [List.getElem?_map]
  | invalidExpected =>
      refine ⟨?_, ?_, ?_⟩
      · simp [googletl_translate_async, pyAssert, testCredentials, hg1, hg2]
      · simp [googletl_translate_async, pyAssert, testCredentials, hg1,
          googletlExtractTexts_dictify]
      · intro i _
        simp [List.getElem?_map]

/-- C2 (counterexample): on the openai async text path with units a and b,
where the response for a carries no content, the returned list is the single
element normalized from b: its 0th element is not the normalized result of
the 0th input, and the list is shorter than N - even though the completion
schedule here finishes task 1 before task 0, the failure is the content
filter, not the ordering. -/
theorem claim_C2_counterexample :
    (openai_translate_async openaiPartialClient .valid (.strList ["a", "b"])
        "text" true none "sys" [1, 0]).result
      = .ok (.listText ["T:b"])
    ∧ ¬ (List.length ["T:b"] = List.length ["a", "b"]) :=
  ⟨rfl, by decide⟩

theorem claim_C2_witness :
    CompleteSchedule 2 [1, 0] ∧ CompleteSchedule 2 [0, 1]
    ∧ googletl_translate_async (dictify googleEchoClient) .valid
        (.strList ["hello", "world"]) "text" "text" [1, 0]
      = googletl_translate_async (dictify googleEchoClient) .valid
        (.strList ["hello", "world"]) "text" "text" [0, 1]
    ∧ (googletl_translate_async (dictify googleEchoClient) .valid
        (.strList ["hello", "world"]) "text" "text" [1, 0]).result
      = .ok (.listText ["TL:hello", "TL:world"]) :=
  ⟨by decide, by decide,
   (claim_C2_amended googleEchoClient .valid ["hello", "world"] [1, 0] [0, 1]
     (by decide) (by decide) (by decide)).1,
   (claim_C2_amended googleEchoClient .valid ["hello", "world"] [1, 0] [0, 1]
     (by decide) (by decide) (by decide)).2.1⟩
